import Mathlib

/-!
Shallow embedding of the `logge-rs` log-sink backend (`src/lib.rs`).

The crate implements the `log::Log` trait for a global `Logger` that wraps a
`Mutex<LoggerOptions>`; `LoggerOptions` holds an output writer and an
enablement predicate.  `Logger::log` gates on the predicate, formats
`"[{}] {:5} [{}] - {}\x0a"` with a chrono `%F %T` UTC timestamp and a
`colored` level token, and writes the line to the configured writer,
discarding any I/O error.  `LoggerOptions::start` installs the options into
the global mutex and registers the global logger with the `log` facade via
`log::set_logger(..).unwrap()`.

Environmental inputs (current wall-clock time, the facade's process-wide
maximum level, whether `colored` emits escape sequences, whether the
destination errors on write) are modelled as explicit state.  Gregorian
years are modelled up to 9999, matching chrono's zero-padded `%Y` on the
reachable range of `Utc::now()`.
-/

namespace LoggeRs

/-- The five `log::Level` values. In the `log` crate they are represented by
the usize values 1 (`Error`, most severe) through 5 (`Trace`). -/
inductive Level where
  | error
  | warn
  | info
  | debug
  | trace
deriving DecidableEq

/-- Numeric representation of `log::Level` (`Error = 1`, ..., `Trace = 5`). -/
def Level.toNat : Level → Nat
  | .error => 1
  | .warn => 2
  | .info => 3
  | .debug => 4
  | .trace => 5

/-- `Level::to_string()` in the `log` crate (uppercase names). -/
def Level.name : Level → String
  | .error => "ERROR"
  | .warn => "WARN"
  | .info => "INFO"
  | .debug => "DEBUG"
  | .trace => "TRACE"

/-- `L1` is strictly more severe than `L2`: smaller numeric value in the
`log` crate's ordering (`Error` is the most severe). -/
def Level.moreSevere (a b : Level) : Prop := Level.toNat a < Level.toNat b

instance (a b : Level) : Decidable (Level.moreSevere a b) :=
  inferInstanceAs (Decidable (Level.toNat a < Level.toNat b))

/-- `log::LevelFilter` (`Off = 0` through `Trace = 5`); `log::max_level()`
returns one of these, and `Level <= LevelFilter` compares the usizes. -/
inductive LevelFilter where
  | off
  | error
  | warn
  | info
  | debug
  | trace
deriving DecidableEq

/-- Numeric representation of `log::LevelFilter`. -/
def LevelFilter.toNat : LevelFilter → Nat
  | .off => 0
  | .error => 1
  | .warn => 2
  | .info => 3
  | .debug => 4
  | .trace => 5

/-- `log::Metadata`: level plus target string. -/
structure Metadata where
  level : Level
  target : String
deriving DecidableEq

/-- `log::Record`: metadata plus the pre-formatted message (`args`). -/
structure Record where
  level : Level
  target : String
  args : String
deriving DecidableEq

/-- `Record::metadata()`. -/
def Record.metadata (r : Record) : Metadata := ⟨r.level, r.target⟩

/-- The foreground colors used by the source (`colored` crate). -/
inductive Color where
  | red
  | yellow
  | green
  | white
  | brightBlack
deriving DecidableEq

/-- The styles used by the source (`colored` crate); only bold occurs. -/
inductive Style where
  | bold
deriving DecidableEq

/-- `colored::ColoredString`: the wrapped text plus its color/style
annotations. -/
structure ColoredString where
  input : String
  fgcolor : Option Color
  bgcolor : Option Color
  styles : List Style
deriving DecidableEq

/-- `str::red()` from the `colored` crate. -/
def String.red (s : String) : ColoredString := ⟨s, some Color.red, none, []⟩

/-- `str::yellow()`. -/
def String.yellow (s : String) : ColoredString := ⟨s, some Color.yellow, none, []⟩

/-- `str::green()`. -/
def String.green (s : String) : ColoredString := ⟨s, some Color.green, none, []⟩

/-- `str::white()`. -/
def String.white (s : String) : ColoredString := ⟨s, some Color.white, none, []⟩

/-- `str::bright_black()`. -/
def String.bright_black (s : String) : ColoredString := ⟨s, some Color.brightBlack, none, []⟩

/-- `str::bold()`. -/
def String.bold (s : String) : ColoredString := ⟨s, none, none, [Style.bold]⟩

/-- `ColoredString::bright_black()`: keeps existing styles, sets the
foreground color. -/
def ColoredString.bright_black (cs : ColoredString) : ColoredString :=
  { cs with fgcolor := some Color.brightBlack }

/-- ANSI code emitted by `colored` for a style. -/
def Style.ansiCode : Style → String
  | .bold => "1"

/-- ANSI foreground code emitted by `colored` for a color. -/
def Color.fgCode : Color → String
  | .red => "31"
  | .yellow => "33"
  | .green => "32"
  | .white => "37"
  | .brightBlack => "90"

/-- `ColoredString::is_plain()`: no colors and no styles. -/
def ColoredString.isPlain (cs : ColoredString) : Bool :=
  cs.fgcolor.isNone && cs.bgcolor.isNone && cs.styles.isEmpty

/-- `ColoredString::compute_style()`: the opening escape sequence, styles
first, then the foreground color, separated by semicolons. -/
def ColoredString.styleHeader (cs : ColoredString) : String :=
  "\x1b[" ++
    String.intercalate ";"
      (cs.styles.map Style.ansiCode ++ (cs.fgcolor.map Color.fgCode).toList) ++ "m"

/-- Rust's `{:width}` padding for `Display`: pad on the right with spaces up
to `width` characters (strings are left-aligned by default). -/
def padTo (s : String) (width : Nat) : String :=
  s ++ String.mk (List.replicate (width - s.length) ' ')

/-- `Display for ColoredString` under a format spec of the given width.
When coloring is active and the string is not plain, the escape header and
trailing reset surround the padded text (the formatter's padding applies to
the inner text, as in `colored`); otherwise the padded plain text.  A width
of 0 means no padding was requested. -/
def ColoredString.render (cs : ColoredString) (colorsOn : Bool) (width : Nat) : String :=
  if colorsOn && !(ColoredString.isPlain cs) then
    ColoredString.styleHeader cs ++ padTo cs.input width ++ "\x1b[0m"
  else
    padTo cs.input width

/-- A UTC wall-clock instant as chrono's `Utc::now()` provides it
(fields already within calendar bounds). -/
structure DateTime where
  year : Nat
  month : Nat
  day : Nat
  hour : Nat
  minute : Nat
  second : Nat
deriving DecidableEq

/-- Decimal digit character of `n % 10`. -/
def digit (n : Nat) : Char :=
  ['0', '1', '2', '3', '4', '5', '6', '7', '8', '9'].getD (n % 10) '0'

/-- Two-digit zero-padded decimal, as chrono's `%m`, `%d`, `%H`, `%M`, `%S`. -/
def pad2 (n : Nat) : String := String.mk [digit (n / 10), digit n]

/-- Four-digit zero-padded decimal, as chrono's `%Y` on years 0..=9999. -/
def pad4 (n : Nat) : String :=
  String.mk [digit (n / 1000), digit (n / 100), digit (n / 10), digit n]

/-- `now.format("%F %T")`: `YYYY-MM-DD HH:MM:SS`. -/
def formatTimestamp (d : DateTime) : String :=
  pad4 d.year ++ "-" ++ pad2 d.month ++ "-" ++ pad2 d.day ++ " " ++
    pad2 d.hour ++ ":" ++ pad2 d.minute ++ ":" ++ pad2 d.second

/-- Kinds of output destination a writer may be backed by; the default is
the standard-error stream (`io::stderr()`). -/
inductive Dest where
  | standardError
  | standardOut
  | custom (tag : Nat)
deriving DecidableEq

/-- An output destination: its identity, the lines it has accepted so far,
and whether its write operation currently errors. -/
structure Writer where
  dest : Dest
  written : List String
  fails : Bool
deriving DecidableEq

/-- The error type of a failed destination write (`io::Error`). -/
inductive WriteError where
  | ioError
deriving DecidableEq

/-- `write!` against the destination: on failure the destination is
unchanged and an `Err` is produced; on success the bytes are appended. -/
def Writer.writeStr (w : Writer) (s : String) : Writer × Except WriteError Unit :=
  if w.fails then (w, Except.error WriteError.ioError)
  else ({ w with written := w.written ++ [s] }, Except.ok ())

/-- `LoggerOptions`: the output writer and the enablement predicate.  The
predicate receives the facade's current `log::max_level()` as an explicit
second argument, since the source's closures read that global at call
time. -/
structure LoggerOptions where
  writer : Writer
  enabled : Metadata → LevelFilter → Bool

/-- `LoggerOptions::default()`: stderr writer, and the predicate
`metadata.level() <= log::max_level()`. -/
def LoggerOptions.default : LoggerOptions :=
  { writer := { dest := Dest.standardError, written := [], fails := false },
    enabled := fun md maxLevel =>
      decide (Level.toNat md.level ≤ LevelFilter.toNat maxLevel) }

/-- `LoggerOptions::set_writer`: consumes self, replaces the writer. -/
def LoggerOptions.set_writer (o : LoggerOptions) (w : Writer) : LoggerOptions :=
  { o with writer := w }

/-- `LoggerOptions::set_enabled`: consumes self, replaces the predicate. -/
def LoggerOptions.set_enabled (o : LoggerOptions)
    (p : Metadata → LevelFilter → Bool) : LoggerOptions :=
  { o with enabled := p }

/-- The process-wide state the source touches: the global `LOGGER`'s
mutex contents (`inner`), the facade's max level and registration slot, the
wall clock, and whether `colored` is emitting escape sequences. -/
structure LoggerState where
  inner : LoggerOptions
  maxLevel : LevelFilter
  facadeLoggerSet : Bool
  now : DateTime
  colorsOn : Bool

/-- `Logger::enabled`: lock the options and apply the stored predicate. -/
def Logger.enabled (st : LoggerState) (md : Metadata) : Bool :=
  st.inner.enabled md st.maxLevel

/-- The `match record.level()` in `Logger::log`: color the level's display
string. -/
def levelColored (l : Level) : ColoredString :=
  match l with
  | Level.error => String.red (Level.name l)
  | Level.warn => String.yellow (Level.name l)
  | Level.info => String.green (Level.name l)
  | Level.debug => String.white (Level.name l)
  | Level.trace => String.bright_black (Level.name l)

/-- The timestamp argument of the `write!`:
`now.format("%F %T").to_string().bold().bright_black()`. -/
def timestampColored (d : DateTime) : ColoredString :=
  ColoredString.bright_black (String.bold (formatTimestamp d))

/-- The string produced by `write!(.., "[{}] {:5} [{}] - {}\x0a", ..)`. -/
def formatLine (colorsOn : Bool) (d : DateTime) (r : Record) : String :=
  "[" ++ ColoredString.render (timestampColored d) colorsOn 0 ++ "] " ++
    ColoredString.render (levelColored r.level) colorsOn 5 ++ " [" ++
    r.target ++ "] - " ++ r.args ++ "\n"

/-- `Logger::log`: if the stored predicate rejects the record's metadata,
return with no effect; otherwise format the line and write it to the
configured writer, discarding the `write!` result (`let _ = ...`). -/
def Logger.log (st : LoggerState) (r : Record) : LoggerState :=
  if Logger.enabled st (Record.metadata r) then
    let res := Writer.writeStr st.inner.writer (formatLine st.colorsOn st.now r)
    { st with inner := { st.inner with writer := res.fst } }
  else
    st

/-- `LoggerOptions::start`: overwrite the global mutex contents with `self`,
then `log::set_logger(&*LOGGER).unwrap()`.  The second component records
whether the `unwrap` panicked (it does exactly when a logger was already
registered with the facade); the overwrite has happened either way. -/
def LoggerOptions.start (o : LoggerOptions) (st : LoggerState) : LoggerState × Bool :=
  let st1 := { st with inner := o }
  if st1.facadeLoggerSet then (st1, true)
  else ({ st1 with facadeLoggerSet := true }, false)

/-- A benign concrete state used by the witnesses: default options, max
level `Info`, facade logger not yet registered, colors off. -/
def sampleState : LoggerState :=
  { inner := LoggerOptions.default
    maxLevel := LevelFilter.info
    facadeLoggerSet := false
    now := ⟨2026, 10, 12, 13, 45, 7⟩
    colorsOn := false }

/-- A state whose destination errors on every write, used by the C7
witness. -/
def failingState : LoggerState :=
  { sampleState with
      inner :=
        { LoggerOptions.default with
            writer := { dest := Dest.standardError, written := [], fails := true } } }

/-- A state in which a global logger is already registered, used by the C9
witness. -/
def startedState : LoggerState := { sampleState with facadeLoggerSet := true }

/-- Whether a string has exactly the shape `YYYY-MM-DD HH:MM:SS`: 19
characters, decimal digits at the date/time positions and the literal
separators in between. -/
def tsShaped (s : String) : Bool :=
  match s.data with
  | [y1, y2, y3, y4, s1, mo1, mo2, s2, d1, d2, s3, h1, h2, s4, mi1, mi2, s5, se1, se2] =>
    y1.isDigit && y2.isDigit && y3.isDigit && y4.isDigit &&
      decide (s1 = '-') && mo1.isDigit && mo2.isDigit && decide (s2 = '-') &&
      d1.isDigit && d2.isDigit && decide (s3 = ' ') &&
      h1.isDigit && h2.isDigit && decide (s4 = ':') &&
      mi1.isDigit && mi2.isDigit && decide (s5 = ':') &&
      se1.isDigit && se2.isDigit
  | _ => false

/-- Number of newline characters in a string. -/
def countNl (s : String) : Nat := s.data.count '\n'

/-- C1: an event whose metadata the stored enablement predicate rejects is
dropped by `Logger::log` with no effect at all: the resulting state (writer
contents included) is unchanged, so zero bytes reach the destination. -/
theorem log_disabled_no_output (st : LoggerState) (r : Record)
    (h : Logger.enabled st (Record.metadata r) = false) :
    Logger.log st r = st := by
  simp [Logger.log, h]

/-- Witness for C1: under default options with max level `Info`, a `Debug`
record is rejected and `Logger::log` leaves the state untouched. -/
theorem log_disabled_no_output_witness :
    Logger.log sampleState ⟨Level.debug, "app::db", "query"⟩ = sampleState :=
  log_disabled_no_output sampleState ⟨Level.debug, "app::db", "query"⟩ (by decide)

/-- C4: `LoggerOptions::default()` yields the standard-error stream as sink
(pristine and not failing) and the predicate admitting exactly the events
whose level is at most the process-wide maximum configured level; being a
total function it cannot fail. -/
theorem default_options_spec :
    LoggerOptions.default.writer.dest = Dest.standardError ∧
    LoggerOptions.default.writer.written = [] ∧
    LoggerOptions.default.writer.fails = false ∧
    ∀ (md : Metadata) (maxLevel : LevelFilter),
      LoggerOptions.default.enabled md maxLevel = true ↔
        Level.toNat md.level ≤ LevelFilter.toNat maxLevel := by
  refine ⟨rfl, rfl, rfl, fun md maxLevel => ?_⟩
  simp [LoggerOptions.default]

/-- C5: the default enablement predicate is monotone in severity: if it
admits a level `l2` under some maximum, it admits every strictly more
severe distinct level `l1` under the same maximum. -/
theorem default_enabled_monotone (l1 l2 : Level) (t : String)
    (maxLevel : LevelFilter) (hne : l1 ≠ l2) (hsev : Level.moreSevere l1 l2)
    (h2 : LoggerOptions.default.enabled ⟨l2, t⟩ maxLevel = true) :
    LoggerOptions.default.enabled ⟨l1, t⟩ maxLevel = true := by
  simp only [LoggerOptions.default, decide_eq_true_eq] at h2 ⊢
  exact le_trans (le_of_lt hsev) h2

/-- Witness for C5: `Error` is more severe than `Warn`; with max level
`Warn`, admitting `Warn` forces admitting `Error`. -/
theorem default_enabled_monotone_witness :
    LoggerOptions.default.enabled ⟨Level.error, "app"⟩ LevelFilter.warn = true :=
  default_enabled_monotone Level.error Level.warn "app" LevelFilter.warn
    (by decide) (by decide) (by decide)

/-- C6: `set_writer` and `set_enabled` fully overwrite the corresponding
field: a second call discards the first call's value, so chaining two calls
equals a single call with the final value. -/
theorem setters_overwrite (c : LoggerOptions) (w1 w2 : Writer)
    (p1 p2 : Metadata → LevelFilter → Bool) :
    (LoggerOptions.set_writer (LoggerOptions.set_writer c w1) w2 =
        LoggerOptions.set_writer c w2) ∧
    (LoggerOptions.set_enabled (LoggerOptions.set_enabled c p1) p2 =
        LoggerOptions.set_enabled c p2) :=
  ⟨rfl, rfl⟩

/-- C7: when the destination's write operation errors, `Logger::log`
discards the error (`let _ = write!(..)`): it still returns normally —
its result is an ordinary state, never a propagated failure — and the
state is unchanged. -/
theorem log_swallows_write_errors (st : LoggerState) (r : Record)
    (hfail : st.inner.writer.fails = true) :
    Logger.log st r = st := by
  by_cases h : Logger.enabled st (Record.metadata r)
  · simp [Logger.log, h, Writer.writeStr, hfail]
  · simp [Logger.log, h]

/-- Witness for C7: an accepted `Info` record against an erroring
destination: `Logger::log` returns normally with the state unchanged. -/
theorem log_swallows_write_errors_witness :
    Logger.log failingState ⟨Level.info, "app::db", "connected"⟩ = failingState :=
  log_swallows_write_errors failingState ⟨Level.info, "app::db", "connected"⟩ rfl

/-- C8: `LoggerOptions::start` replaces the global sink's guarded
configuration with `self`, so every subsequent enablement check (and hence
every emit, which gates and writes through `inner`) uses the newly
installed destination and predicate. -/
theorem start_installs_options (g : LoggerState) (o : LoggerOptions) (md : Metadata) :
    ((LoggerOptions.start o g).fst).inner = o ∧
    Logger.enabled (LoggerOptions.start o g).fst md = o.enabled md g.maxLevel := by
  by_cases h : g.facadeLoggerSet = true <;>
    simp [LoggerOptions.start, Logger.enabled, h]

/-- C9: a second activation is fatal — with the facade's logger already
registered, `start` panics (the `unwrap` on `log::set_logger`) — while the
overwrite of the guarded configuration has nonetheless silently succeeded:
the state carried to the panic already holds the new options. -/
theorem double_start_panics (g : LoggerState) (o : LoggerOptions)
    (h : g.facadeLoggerSet = true) :
    (LoggerOptions.start o g).snd = true ∧
    ((LoggerOptions.start o g).fst).inner = o := by
  simp [LoggerOptions.start, h]

/-- Witness for C9: starting `LoggerOptions::default` a second time panics,
yet the guarded configuration was overwritten. -/
theorem double_start_panics_witness :
    (LoggerOptions.start LoggerOptions.default startedState).snd = true ∧
    ((LoggerOptions.start LoggerOptions.default startedState).fst).inner =
      LoggerOptions.default :=
  double_start_panics startedState LoggerOptions.default rfl

/-- C3 counterexample: the claim asserts the level token receives a bold
style; at the concrete input `Error`, the level token built by
`Logger::log` carries no bold style (it is only colored red). -/
theorem level_token_not_bold :
    ¬ Style.bold ∈ (levelColored Level.error).styles := by
  decide

/-- C3 (amended): the level token is color-annotated Error→red,
Warn→yellow, Info→green, Debug→white, Trace→bright-black, with no further
style; only the timestamp receives the bold style, and the timestamp is
additionally colored bright-black (rendered dim). -/
theorem level_timestamp_styling (d : DateTime) :
    (levelColored Level.error).fgcolor = some Color.red ∧
    (levelColored Level.warn).fgcolor = some Color.yellow ∧
    (levelColored Level.info).fgcolor = some Color.green ∧
    (levelColored Level.debug).fgcolor = some Color.white ∧
    (levelColored Level.trace).fgcolor = some Color.brightBlack ∧
    (∀ l : Level, (levelColored l).styles = []) ∧
    (timestampColored d).styles = [Style.bold] ∧
    (timestampColored d).fgcolor = some Color.brightBlack := by
  refine ⟨rfl, rfl, rfl, rfl, rfl, fun l => ?_, rfl, rfl⟩
  cases l <;> rfl

theorem digit_isDigit (n : Nat) : (digit n).isDigit = true := by
  have h : n % 10 < 10 := Nat.mod_lt _ (by norm_num)
  unfold digit
  revert h
  generalize n % 10 = m
  intro h
  interval_cases m <;> rfl

theorem digit_ne_nl (n : Nat) : digit n ≠ '\n' := by
  have h : n % 10 < 10 := Nat.mod_lt _ (by norm_num)
  unfold digit
  revert h
  generalize n % 10 = m
  intro h
  interval_cases m <;> decide

theorem nl_ne_digit (n : Nat) : ('\n') ≠ digit n := fun h => digit_ne_nl n h.symm

theorem padTo_zero (s : String) : padTo s 0 = s := by
  simp [padTo]

theorem render_plain (cs : ColoredString) (w : Nat) :
    ColoredString.render cs false w = padTo cs.input w := by
  simp [ColoredString.render]

theorem levelColored_input (l : Level) : (levelColored l).input = Level.name l := by
  cases l <;> rfl

theorem dataDash : ("-" : String).data = ['-'] := rfl

theorem dataSpace : (" " : String).data = [' '] := rfl

theorem dataColon : (":" : String).data = [':'] := rfl

theorem dataNl : ("\n" : String).data = ['\n'] := rfl

theorem dataDashSep : ("] - " : String).data = [']', ' ', '-', ' '] := rfl

theorem formatLine_plain (d : DateTime) (r : Record) :
    formatLine false d r =
      "[" ++ formatTimestamp d ++ "] " ++ padTo (Level.name r.level) 5 ++
        " [" ++ r.target ++ "] - " ++ r.args ++ "\n" := by
  simp [formatLine, render_plain, padTo_zero, levelColored_input, timestampColored,
    ColoredString.bright_black, String.bold]

theorem padTo_level_len (l : Level) : (padTo (Level.name l) 5).length = 5 := by
  cases l <;> decide

theorem formatTimestamp_shaped (d : DateTime) :
    tsShaped (formatTimestamp d) = true := by
  simp [tsShaped, formatTimestamp, pad4, pad2, String.data_append, dataDash,
    dataSpace, dataColon, digit_isDigit]

theorem nl_not_mem_ts (d : DateTime) : ('\n') ∉ (formatTimestamp d).data := by
  simp [formatTimestamp, pad4, pad2, String.data_append, dataDash, dataSpace,
    dataColon, nl_ne_digit]

theorem countNl_append (a b : String) : countNl (a ++ b) = countNl a + countNl b := by
  simp [countNl, String.data_append]

theorem countNl_ts (d : DateTime) : countNl (formatTimestamp d) = 0 :=
  List.count_eq_zero.mpr (nl_not_mem_ts d)

theorem countNl_levelPad (l : Level) : countNl (padTo (Level.name l) 5) = 0 := by
  cases l <;> decide

/-- C2: for an accepted event (with a working destination, escape codes
stripped, and newline-free fields), `Logger::log` appends exactly one
string to the destination, laid out `[<timestamp>] <LEVEL> [<target>] -
<message>` with a trailing newline: the timestamp is the current UTC
wall clock formatted `YYYY-MM-DD HH:MM:SS` (shape certified by
`tsShaped`), the level name is space-padded to exactly 5 characters, the
target and message appear verbatim, and the emitted string contains
exactly one newline, so exactly one line is produced. -/
theorem log_enabled_single_line_layout (st : LoggerState) (r : Record)
    (hen : Logger.enabled st (Record.metadata r) = true)
    (hcolor : st.colorsOn = false)
    (hfail : st.inner.writer.fails = false)
    (htnl : ('\n') ∉ r.target.data)
    (hmnl : ('\n') ∉ r.args.data) :
    (Logger.log st r).inner.writer.written =
      st.inner.writer.written ++
        ["[" ++ formatTimestamp st.now ++ "] " ++ padTo (Level.name r.level) 5 ++
          " [" ++ r.target ++ "] - " ++ r.args ++ "\n"] ∧
    (padTo (Level.name r.level) 5).length = 5 ∧
    tsShaped (formatTimestamp st.now) = true ∧
    countNl (formatLine st.colorsOn st.now r) = 1 := by
  refine ⟨?_, padTo_level_len r.level, formatTimestamp_shaped st.now, ?_⟩
  · simp [Logger.log, hen, Writer.writeStr, hfail, hcolor, formatLine_plain]
  · have ht : countNl r.target = 0 := List.count_eq_zero.mpr htnl
    have hm : countNl r.args = 0 := List.count_eq_zero.mpr hmnl
    rw [hcolor, formatLine_plain]
    simp only [countNl_append, countNl_ts, countNl_levelPad, ht, hm]
    decide

/-- Witness for C2: an accepted `Info` record with target `app::db` and
message `connected` under the default configuration with max level
`Info`. -/
theorem log_enabled_single_line_layout_witness :
    (Logger.log sampleState ⟨Level.info, "app::db", "connected"⟩).inner.writer.written =
      sampleState.inner.writer.written ++
        ["[" ++ formatTimestamp sampleState.now ++ "] " ++
          padTo (Level.name Level.info) 5 ++ " [" ++ "app::db" ++ "] - " ++
          "connected" ++ "\n"] ∧
    (padTo (Level.name Level.info) 5).length = 5 ∧
    tsShaped (formatTimestamp sampleState.now) = true ∧
    countNl (formatLine sampleState.colorsOn sampleState.now
      ⟨Level.info, "app::db", "connected"⟩) = 1 :=
  log_enabled_single_line_layout sampleState ⟨Level.info, "app::db", "connected"⟩
    (by decide) rfl rfl (by decide) (by decide)

/-- C10: every string emitted by `Logger::log`, for any color setting,
time, and record, ends in a newline (the format string appends one
unconditionally), and — whenever the message itself does not end in a
newline — the character before that final newline is not a newline, so
exactly one trailing line terminator is produced. -/
theorem log_line_trailing_newline (colorsOn : Bool) (d : DateTime) (r : Record) :
    (formatLine colorsOn d r).data.getLast? = some '\n' ∧
    (r.args.data.getLast? ≠ some '\n' →
      (formatLine colorsOn d r).data.dropLast.getLast? ≠ some '\n') := by
  have e : (formatLine colorsOn d r).data =
      (("[" ++ ColoredString.render (timestampColored d) colorsOn 0 ++ "] " ++
          ColoredString.render (levelColored r.level) colorsOn 5 ++ " [" ++
          r.target).data ++ [']', ' ', '-', ' '] ++ r.args.data) ++ ['\n'] := by
    simp [formatLine, String.data_append, dataDashSep, dataNl]
  constructor
  · rw [e, List.getLast?_append_of_ne_nil _ (by simp : (['\n'] : List Char) ≠ [])]
    rfl
  · intro h
    rw [e]
    simp only [List.dropLast_concat]
    rcases eq_or_ne r.args.data [] with he | hne
    · rw [he, List.append_nil]
      rw [List.getLast?_append_of_ne_nil _
        (by simp : ([']', ' ', '-', ' '] : List Char) ≠ [])]
      decide
    · rw [List.getLast?_append_of_ne_nil _ hne]
      exact h

/-- Witness for C10: with colors on, a fixed instant and the message
`connected` (which does not end in a newline), the character before the
final newline of the emitted line is not a newline. -/
theorem log_line_trailing_newline_witness :
    (formatLine true ⟨2026, 10, 12, 13, 45, 7⟩
        ⟨Level.info, "app::db", "connected"⟩).data.dropLast.getLast? ≠ some '\n' :=
  (log_line_trailing_newline true ⟨2026, 10, 12, 13, 45, 7⟩
    ⟨Level.info, "app::db", "connected"⟩).2 (by decide)

end LoggeRs
